import Mathlib

/-!
Shallow embedding of `unfollow.js`, the single source file of the
Farcaster-Spam-Label-Unfollower repository.

The script has three functions:
  * `fetchFidsToUnfollow` — submits a Dune Analytics query execution,
    polls its status, fetches the result rows and projects `profile_id`
    out of each row; every error is caught inside the function and turned
    into an empty list plus log output;
  * `unfollowFids` — slices the identifier list into batches of 100 and
    issues one DELETE request per batch through a `p-limit(5)` concurrency
    gate, catching and logging each batch's failure individually;
  * `main` — checks that the four environment variables are present
    (truthiness only), runs the fetch, shows the list, asks for
    confirmation (`answer.toLowerCase() === 'yes'`) and, on a match,
    runs `unfollowFids`.

Remote HTTP interactions are modelled by environments that fix, for each
request the script can make, the response axios would deliver: a value, or
a thrown error (`JsError`, carrying `error.response` data when present).
The unbounded polling loop is modelled with explicit fuel, returning
`none` when the fuel runs out before the loop does.  JavaScript strings
are modelled as `List Char` and log lines as structured `LogEvent`s so
that every definition evaluates inside the kernel.
-/

namespace Unfollow

/-- A JavaScript value appearing in the identifier list: a number, or
`undefined` (modelled as `none`) when the projected field is missing
from a result row. -/
abbrev JsVal := Option Int

/-- What the `catch (error)` blocks of the script observe about a thrown
value: `error.response` — the HTTP status and serialized body, when the
failure came from an HTTP response — and `error.message`. -/
structure JsError where
  response : Option (Nat × String)
  message : String
deriving DecidableEq, Repr

/-- One log line of the script's `log` object.  Lines whose text is
interpolated from data are modelled as structured constructors carrying
exactly the interpolated values. -/
inductive LogEvent where
  /-- `[INFO] Executing Dune query (ID: ...) for target FID: ...` -/
  | infoExecutingQuery
  /-- `[INFO] Dune execution started with ID: ${executionId}. Waiting for results...` -/
  | infoExecutionStarted (id : String)
  /-- `[INFO] Query state: ${status.state}...` -/
  | infoQueryState (st : String)
  /-- `[SUCCESS] Found ${fids.length} FIDs to unfollow.` -/
  | successFound (n : Nat)
  /-- `[ERROR] Error fetching data from Dune API.` -/
  | errorDuneFetch
  /-- `[ERROR] Status: ${error.response.status} - ${JSON.stringify(error.response.data)}` -/
  | errorStatusLine (status : Nat) (body : String)
  /-- `[ERROR] ${error.message}` -/
  | errorMessage (msg : String)
  /-- `[WARN] No FIDs to unfollow. Exiting.` -/
  | warnNoFids
  /-- `[INFO] Preparing to unfollow ${fids.length} users.` -/
  | infoPreparing (n : Nat)
  /-- `[INFO] Splitting into ${batches.length} batch(es).` -/
  | infoSplitting (nBatches : Nat)
  /-- `[INFO] Processing batch ${index + 1}/${batches.length} with ${batch.length} FIDs...` -/
  | infoProcessingBatch (i total size : Nat)
  /-- `[SUCCESS] Batch ${index + 1} processed successfully.` -/
  | successBatch (i : Nat)
  /-- `[WARN] Batch ${index + 1} processed with issues.` -/
  | warnBatch (i : Nat)
  /-- `[ERROR] Failed to process batch ${index + 1}.` -/
  | errorBatchFailed (i : Nat)
  /-- `[SUCCESS] All unfollow operations completed.` -/
  | successAllDone
deriving DecidableEq, Repr

/-! ## The Batch Actuator: `unfollowFids` -/

/-- Batch size used by `unfollowFids` (`const batchSize = 100`). -/
def batchSize : Nat := 100

/-- The batching loop of `unfollowFids`, with explicit fuel so that the
recursion is structural:
`for (let i = 0; i < fids.length; i += batchSize) batches.push(fids.slice(i, i + batchSize))`.
`fids.slice(i, i + batchSize)` is `take batchSize` of the part of the list
from index `i` on, so each iteration peels one `take`/`drop` off the
front; an empty input never enters the loop body.  Each iteration
consumes at least one element, so `l.length` fuel always suffices
(`makeBatchesGo_eq` below shows the fuel is inessential). -/
def makeBatchesGo {α : Type} (fuel : Nat) (l : List α) : List (List α) :=
  match fuel, l with
  | 0, _ => []
  | _ + 1, [] => []
  | fuel + 1, x :: xs => ((x :: xs).take batchSize) :: makeBatchesGo fuel ((x :: xs).drop batchSize)

/-- The batch list `unfollowFids` builds from `fids`. -/
def makeBatches {α : Type} (l : List α) : List (List α) :=
  makeBatchesGo l.length l

/-- The outcome the script observes for one batch's
`axios.delete(NEYNAR_API_URL + '/user/follow', ...)` call:
the response arrived with `success` truthy, with `success` falsy,
or axios threw. -/
inductive BatchResult where
  | ok
  | issues
  | failed (e : JsError)
deriving DecidableEq, Repr

/-- The body of one DELETE request issued by `unfollowFids`:
`data: { signer_uuid: FARCASTER_SIGNER_UUID, target_fids: batch }`. -/
structure DeleteRequest where
  signer_uuid : String
  target_fids : List JsVal
deriving DecidableEq, Repr

/-- Observable behaviour of one `unfollowFids` run: the DELETE requests it
issued (in batch order) and the log lines it produced. -/
structure UnfollowTrace where
  requests : List DeleteRequest
  logs : List LogEvent
deriving DecidableEq, Repr

/-- One iteration of `batches.map((batch, index) => limit(async () => ...))`:
the request is issued inside the `try`, so it is attempted whatever the
outcome is; a throw is caught in the batch's own `catch` and logged, with
the status line when `error.response` exists. -/
def processBatch (outcome : Nat → BatchResult) (total : Nat) (signer : String)
    (i : Nat) (batch : List JsVal) : DeleteRequest × List LogEvent :=
  (⟨signer, batch⟩,
   .infoProcessingBatch (i + 1) total batch.length ::
     match outcome i with
     | .ok => [.successBatch (i + 1)]
     | .issues => [.warnBatch (i + 1)]
     | .failed e =>
       .errorBatchFailed (i + 1) ::
         (match e.response with
          | some (st, body) => [.errorStatusLine st body]
          | none => [.errorMessage e.message]))

/-- `unfollowFids(fids)`, with the per-batch HTTP outcomes supplied by the
environment `outcome`.  Early return on an empty list; otherwise all
batches are dispatched and `Promise.all` joins them before the final
success log. -/
def unfollowFids (outcome : Nat → BatchResult) (signer : String)
    (fids : List JsVal) : UnfollowTrace :=
  if fids.length = 0 then
    ⟨[], [.warnNoFids]⟩
  else
    let batches := makeBatches fids
    let results := batches.enum.map fun p => processBatch outcome batches.length signer p.1 p.2
    ⟨results.map Prod.fst,
     .infoPreparing fids.length :: .infoSplitting batches.length ::
       ((results.map Prod.snd).flatten ++ [.successAllDone])⟩

/-! ## The Query Runner: `fetchFidsToUnfollow` -/

/-- `executeResponse.data` of the Dune execute call: `execution_id` is
`none` when the field is absent from the response. -/
structure ExecuteResponse where
  execution_id : Option String
deriving DecidableEq, Repr

/-- `statusResponse.data` of a Dune status call. -/
structure StatusResponse where
  state : String
  errText : String
deriving DecidableEq, Repr

/-- One row of `resultsResponse.data.result.rows`: `profile_id` is `none`
when the row lacks the field (JavaScript `undefined`). -/
structure Row where
  profile_id : JsVal
deriving DecidableEq, Repr

/-- The remote Dune API as seen by one run: the response (or thrown error)
of the execute call, of the `i`-th status call, and of the results call. -/
structure DuneEnv where
  executeResp : Except JsError ExecuteResponse
  statusResp : Nat → Except JsError StatusResponse
  resultsResp : Except JsError (List Row)

/-- The `do { await sleep(3000); ... } while (status.state !== 'QUERY_STATE_COMPLETED')`
loop, with fuel.  Returns the number of status requests issued, the log
lines, and the outcome: `Except.error` models a throw (an axios failure,
or `new Error('Dune query failed: ...')` on `QUERY_STATE_FAILED`, checked
before the completion test). -/
def pollLoop (sr : Nat → Except JsError StatusResponse) (fuel i : Nat) :
    Option (Nat × List LogEvent × Except JsError Unit) :=
  match fuel with
  | 0 => none
  | fuel + 1 =>
    match sr i with
    | .error e => some (i + 1, [], .error e)
    | .ok st =>
      if st.state = "QUERY_STATE_FAILED" then
        some (i + 1, [], .error ⟨none, "Dune query failed: " ++ st.errText⟩)
      else if st.state = "QUERY_STATE_COMPLETED" then
        some (i + 1, [.infoQueryState st.state], .ok ())
      else
        match pollLoop sr fuel (i + 1) with
        | none => none
        | some (n, logs, out) => some (n, .infoQueryState st.state :: logs, out)

/-- Observable behaviour of the `try` block of `fetchFidsToUnfollow`:
its result (the projected list, or the thrown value), how many status
requests were issued, whether the results request was issued, and the
log lines so far. -/
structure FetchTrace where
  result : Except JsError (List JsVal)
  statusCalls : Nat
  resultsFetched : Bool
  logs : List LogEvent
deriving Repr

/-- The `try` block of `fetchFidsToUnfollow`: submit (`execution_id`
falsy — absent or empty — throws `'Failed to get execution ID from Dune.'`),
poll, fetch results, and project `row.profile_id` from every row.
`none` when the polling fuel runs out. -/
def tryFetch (env : DuneEnv) (fuel : Nat) : Option FetchTrace :=
  match env.executeResp with
  | .error e => some ⟨.error e, 0, false, [.infoExecutingQuery]⟩
  | .ok ex =>
    match ex.execution_id with
    | none => some ⟨.error ⟨none, "Failed to get execution ID from Dune."⟩, 0, false,
        [.infoExecutingQuery]⟩
    | some eid =>
      if eid = "" then
        some ⟨.error ⟨none, "Failed to get execution ID from Dune."⟩, 0, false,
          [.infoExecutingQuery]⟩
      else
        match pollLoop env.statusResp fuel 0 with
        | none => none
        | some (n, plogs, .error e) =>
          some ⟨.error e, n, false, .infoExecutingQuery :: .infoExecutionStarted eid :: plogs⟩
        | some (n, plogs, .ok ()) =>
          match env.resultsResp with
          | .error e =>
            some ⟨.error e, n, true, .infoExecutingQuery :: .infoExecutionStarted eid :: plogs⟩
          | .ok rows =>
            some ⟨.ok (rows.map Row.profile_id), n, true,
              .infoExecutingQuery :: .infoExecutionStarted eid ::
                (plogs ++ [.successFound rows.length])⟩

/-- The log lines of the `catch (error)` block of `fetchFidsToUnfollow`:
the fixed line, then the status line when `error.response` exists, else
`error.message`. -/
def catchLogs (e : JsError) : List LogEvent :=
  .errorDuneFetch ::
    (match e.response with
     | some (st, body) => [.errorStatusLine st body]
     | none => [.errorMessage e.message])

/-- `fetchFidsToUnfollow()` as its caller sees it: the returned list and
the full trace.  Every throw inside the `try` block is downgraded to an
empty list by the `catch` block — the function's type has no error
channel left. -/
def fetchFidsToUnfollow (env : DuneEnv) (fuel : Nat) :
    Option (List JsVal × FetchTrace) :=
  match tryFetch env fuel with
  | none => none
  | some t =>
    match t.result with
    | .ok fids => some (fids, t)
    | .error e => some ([], { t with logs := t.logs ++ catchLogs e })

/-! ## The concurrency gate: `p-limit(5)`

`p-limit` is a third-party dependency whose source is not part of this
repository.  Modelled from the spec: a gate that runs a submitted task
immediately while fewer than 5 are active, queues it otherwise, and on
each completion moves one queued task (if any) into the freed slot. -/

/-- The concurrency limit (`const limit = pLimit(5)`). -/
def concurrencyLimit : Nat := 5

/-- State of the gate: how many tasks are running and how many are
queued. -/
structure LimitState where
  active : Nat
  queued : Nat
deriving DecidableEq, Repr

/-- Modelled from the spec: one transition of the `p-limit(5)` gate.
A submission runs at once when a slot is free and queues otherwise; a
completion either hands its slot to a queued task or frees it. -/
inductive LimitStep : LimitState → LimitState → Prop
  | submitRun (s : LimitState) (h : s.active < concurrencyLimit) :
      LimitStep s ⟨s.active + 1, s.queued⟩
  | submitQueue (s : LimitState) (h : concurrencyLimit ≤ s.active) :
      LimitStep s ⟨s.active, s.queued + 1⟩
  | completeDequeue (s : LimitState) (ha : 0 < s.active) (hq : 0 < s.queued) :
      LimitStep s ⟨s.active, s.queued - 1⟩
  | completeIdle (s : LimitState) (ha : 0 < s.active) (hq : s.queued = 0) :
      LimitStep s ⟨s.active - 1, 0⟩

/-- A gate state reachable from the idle state `⟨0, 0⟩` the gate starts
in. -/
def LimitReachable (s : LimitState) : Prop :=
  Relation.ReflTransGen LimitStep ⟨0, 0⟩ s

/-! ## `main`: environment check, confirmation gate -/

/-- The two branches of `main`'s confirmation: call `unfollowFids(fids)`,
or log the cancellation and stop. -/
inductive MainAction where
  | runUnfollow
  | cancelled
deriving DecidableEq, Repr

/-- ASCII fragment of JavaScript `String.prototype.toLowerCase` on one
UTF-16 unit: `A`..`Z` (code 65..90) map 32 up, everything else in the
fragment is left unchanged.  The affirmative token compared against is
ASCII. -/
def jsLowerChar (c : Char) : Char :=
  if 65 ≤ c.toNat ∧ c.toNat ≤ 90 then Char.ofNat (c.toNat + 32) else c

/-- `answer.toLowerCase()` on a JavaScript string modelled as its
character list. -/
def jsToLower (s : List Char) : List Char := s.map jsLowerChar

/-- The confirmation gate of `main`:
`if (answer.toLowerCase() === 'yes') { await unfollowFids(fids); } else { ... }`. -/
def confirmGate (answer : List Char) : MainAction :=
  if jsToLower answer = ['y', 'e', 's'] then .runUnfollow else .cancelled

/-- The process environment: the four variables read from `process.env`,
each `none` when unset.  JavaScript strings as character lists. -/
structure ProcessEnv where
  DUNE_API_KEY : Option (List Char)
  NEYNAR_API_KEY : Option (List Char)
  FARCASTER_SIGNER_UUID : Option (List Char)
  TARGET_FID : Option (List Char)

/-- JavaScript truthiness of an environment variable: an unset variable
(`undefined`) and the empty string are falsy, every other string is
truthy. -/
def truthyStr : Option (List Char) → Bool
  | none => false
  | some s => !s.isEmpty

/-- The startup check of `main`:
`if (!DUNE_API_KEY || !NEYNAR_API_KEY || !FARCASTER_SIGNER_UUID || !TARGET_FID)`
— presence (truthiness) only, no validity check of any value. -/
def envCheckPasses (e : ProcessEnv) : Bool :=
  truthyStr e.DUNE_API_KEY && truthyStr e.NEYNAR_API_KEY &&
    truthyStr e.FARCASTER_SIGNER_UUID && truthyStr e.TARGET_FID

/-- Numeric value of a digit list under `fold`ing base 10. -/
def digitsToNat (ds : List Char) : Nat :=
  ds.foldl (fun a c => a * 10 + (c.toNat - 48)) 0

/-- Decimal-integer fragment of JavaScript `Number(string)` as used on
`TARGET_FID`: surrounding whitespace is ignored, the empty (or
all-whitespace) string is `0`, an optionally `-`-signed digit string is
its value, and any other string is `NaN`, modelled as `none`.  (The
hexadecimal and fractional forms `Number` also accepts are out of scope:
the claims only distinguish numeric from non-numeric strings.) -/
def jsNumberOfChars (s : List Char) : Option Int :=
  let t := ((s.dropWhile Char.isWhitespace).reverse.dropWhile Char.isWhitespace).reverse
  if t = [] then some 0
  else if t.all Char.isDigit then some (digitsToNat t)
  else if t.head? = some '-' ∧ t.tail ≠ [] ∧ t.tail.all Char.isDigit then
    some (-(digitsToNat t.tail : Int))
  else none

/-- The single query parameter of the Dune execute call:
`query_parameters: { fid_t90e29: Number(TARGET_FID) }`; `none` models
`NaN`. -/
structure SubmitRequest where
  fid_t90e29 : Option Int
deriving DecidableEq, Repr

/-- The submission `main` leads to: when the startup check passes, the
execute request is issued carrying `Number(TARGET_FID)` — nothing
re-validates the conversion, so a `NaN` parameter goes out unimpeded;
when the check fails, `main` returns before any request. -/
def mainSubmission (e : ProcessEnv) : Option SubmitRequest :=
  if envCheckPasses e then some ⟨jsNumberOfChars (e.TARGET_FID.getD [])⟩ else none

/-! ## Helper lemmas about the batching loop -/

theorem makeBatchesGo_eq {α : Type} (fuel : Nat) (l : List α) (h : l.length ≤ fuel) :
    makeBatchesGo fuel l = makeBatches l := by
  induction fuel using Nat.strong_induction_on generalizing l with
  | _ fuel ih =>
    match fuel, l with
    | 0, l =>
      have : l = [] := List.length_eq_zero.mp (Nat.le_zero.mp h)
      subst this
      rfl
    | fuel + 1, [] => rfl
    | fuel + 1, x :: xs =>
      show ((x :: xs).take batchSize) :: makeBatchesGo fuel ((x :: xs).drop batchSize) = _
      have hxs : xs.length ≤ fuel := by
        simpa using h
      have hdrop : ((x :: xs).drop batchSize).length ≤ xs.length := by
        simp [batchSize]
      rw [ih fuel (Nat.lt_succ_self _) _ (le_trans hdrop hxs)]
      show _ = ((x :: xs).take batchSize) :: makeBatchesGo xs.length ((x :: xs).drop batchSize)
      rw [ih xs.length (Nat.lt_succ_of_le hxs) _ hdrop]

theorem makeBatches_nil {α : Type} : makeBatches ([] : List α) = [] := rfl

theorem makeBatches_cons {α : Type} (x : α) (xs : List α) :
    makeBatches (x :: xs) =
      ((x :: xs).take batchSize) :: makeBatches ((x :: xs).drop batchSize) := by
  show ((x :: xs).take batchSize) :: makeBatchesGo xs.length ((x :: xs).drop batchSize) = _
  rw [makeBatchesGo_eq xs.length _ (by simp [batchSize])]

theorem makeBatches_flatten {α : Type} (l : List α) : (makeBatches l).flatten = l := by
  have H : ∀ n (l : List α), l.length = n → (makeBatches l).flatten = l := by
    intro n
    induction n using Nat.strong_induction_on with
    | _ n ih =>
      intro l hn
      rcases l with _ | ⟨x, xs⟩
      · rfl
      · rw [makeBatches_cons]
        have hlt : ((x :: xs).drop batchSize).length < (x :: xs).length := by
          simp [batchSize]
          omega
        rw [List.flatten_cons, ih _ (hn ▸ hlt) _ rfl, List.take_append_drop]
  exact H l.length l rfl

theorem makeBatches_length {α : Type} (l : List α) :
    (makeBatches l).length = (l.length + (batchSize - 1)) / batchSize := by
  have H : ∀ n (l : List α), l.length = n →
      (makeBatches l).length = (l.length + (batchSize - 1)) / batchSize := by
    intro n
    induction n using Nat.strong_induction_on with
    | _ n ih =>
      intro l hn
      rcases l with _ | ⟨x, xs⟩
      · simp [makeBatches_nil, batchSize]
      · rw [makeBatches_cons]
        have hlt : ((x :: xs).drop batchSize).length < (x :: xs).length := by
          simp [batchSize]
          omega
        rw [List.length_cons, ih _ (hn ▸ hlt) _ rfl]
        simp only [List.length_drop]
        simp only [batchSize, List.length_cons]
        omega
  exact H l.length l rfl

theorem makeBatches_mem_length {α : Type} (l : List α) (b : List α)
    (hb : b ∈ makeBatches l) : b.length ≤ batchSize ∧ b ≠ [] := by
  have H : ∀ n (l b : List α), l.length = n → b ∈ makeBatches l →
      b.length ≤ batchSize ∧ b ≠ [] := by
    intro n
    induction n using Nat.strong_induction_on with
    | _ n ih =>
      intro l b hn hb
      rcases l with _ | ⟨x, xs⟩
      · simp [makeBatches_nil] at hb
      · rw [makeBatches_cons] at hb
        have hlt : ((x :: xs).drop batchSize).length < (x :: xs).length := by
          simp [batchSize]
          omega
        rcases List.mem_cons.mp hb with h | h
        · subst h
          refine ⟨by simp [List.length_take], ?_⟩
          simp [batchSize]
        · exact ih _ (hn ▸ hlt) _ _ rfl h
  exact H l.length l b rfl hb

theorem makeBatches_dropLast_length {α : Type} (l : List α) (b : List α)
    (hb : b ∈ (makeBatches l).dropLast) : b.length = batchSize := by
  have H : ∀ n (l b : List α), l.length = n → b ∈ (makeBatches l).dropLast →
      b.length = batchSize := by
    intro n
    induction n using Nat.strong_induction_on with
    | _ n ih =>
      intro l b hn hb
      rcases l with _ | ⟨x, xs⟩
      · simp [makeBatches_nil] at hb
      · rw [makeBatches_cons] at hb
        have hlt : ((x :: xs).drop batchSize).length < (x :: xs).length := by
          simp [batchSize]
          omega
        by_cases hrest : makeBatches ((x :: xs).drop batchSize) = []
        · rw [hrest] at hb
          simp at hb
        · rw [List.dropLast_cons_of_ne_nil hrest] at hb
          rcases List.mem_cons.mp hb with h | h
          · subst h
            have hlong : batchSize ≤ (x :: xs).length := by
              by_contra hc
              push_neg at hc
              have hd : (x :: xs).drop batchSize = [] := List.drop_eq_nil_of_le (by omega)
              rw [hd] at hrest
              exact hrest rfl
            simp only [List.length_take, List.length_cons] at *
            omega
          · exact ih _ (hn ▸ hlt) _ _ rfl h
  exact H l.length l b rfl hb

/-! ## Claim theorems -/

/-- C1: for every non-empty identifier list, `unfollowFids` partitions it
into exactly `⌈n / 100⌉` chunks, each of size at most 100, only the last
chunk possibly shorter, in the original order, and the concatenation of
the chunks is the input list itself. -/
theorem batching_partitions (l : List JsVal) (_hne : l ≠ []) :
    (makeBatches l).length = (l.length + (batchSize - 1)) / batchSize ∧
    (∀ b ∈ makeBatches l, b.length ≤ batchSize) ∧
    (∀ b ∈ (makeBatches l).dropLast, b.length = batchSize) ∧
    (makeBatches l).flatten = l :=
  ⟨makeBatches_length l, fun b hb => (makeBatches_mem_length l b hb).1,
   fun b hb => makeBatches_dropLast_length l b hb, makeBatches_flatten l⟩

theorem batching_partitions_witness :
    (([some 1, none, some 2] : List JsVal) ≠ []) ∧
    ((makeBatches ([some 1, none, some 2] : List JsVal)).length =
        (([some 1, none, some 2] : List JsVal).length + (batchSize - 1)) / batchSize ∧
      (∀ b ∈ makeBatches ([some 1, none, some 2] : List JsVal), b.length ≤ batchSize) ∧
      (∀ b ∈ (makeBatches ([some 1, none, some 2] : List JsVal)).dropLast,
        b.length = batchSize) ∧
      (makeBatches ([some 1, none, some 2] : List JsVal)).flatten = [some 1, none, some 2]) :=
  ⟨by decide, batching_partitions [some 1, none, some 2] (by decide)⟩

/-- C6: called on the empty list, `unfollowFids` issues no request and
returns right away, leaving only the warning log line. -/
theorem unfollowFids_empty_noop (outcome : Nat → BatchResult) (signer : String) :
    unfollowFids outcome signer [] = ⟨[], [LogEvent.warnNoFids]⟩ ∧
    (unfollowFids outcome signer []).requests = [] :=
  ⟨rfl, rfl⟩

/-- C8: the `p-limit(5)` gate (modelled from the spec, `p-limit` being a
dependency outside this repository) never has more than 5 tasks active at
once in any state reachable from the idle start state. -/
theorem limit_never_exceeds_five (s : LimitState) (h : LimitReachable s) :
    s.active ≤ concurrencyLimit := by
  induction h with
  | refl => decide
  | tail _ hstep ih =>
    cases hstep with
    | submitRun h' => simpa using h'
    | submitQueue h' => simpa using ih
    | completeDequeue ha hq => simpa using ih
    | completeIdle ha hq =>
      simp only [concurrencyLimit] at ih ⊢
      omega

theorem limit_never_exceeds_five_witness :
    LimitReachable ⟨1, 0⟩ ∧ (LimitState.mk 1 0).active ≤ concurrencyLimit :=
  ⟨Relation.ReflTransGen.single (LimitStep.submitRun ⟨0, 0⟩ (by decide)),
   limit_never_exceeds_five ⟨1, 0⟩
     (Relation.ReflTransGen.single (LimitStep.submitRun ⟨0, 0⟩ (by decide)))⟩

/-- All decisions of the ASCII lowercasing needed below, checked over the
ASCII range. -/
theorem jsLowerChar_fin128 : ∀ n : Fin 128,
    (jsLowerChar (Char.ofNat n.val) = 'y' →
      Char.ofNat n.val = 'y' ∨ Char.ofNat n.val = 'Y') ∧
    (jsLowerChar (Char.ofNat n.val) = 'e' →
      Char.ofNat n.val = 'e' ∨ Char.ofNat n.val = 'E') ∧
    (jsLowerChar (Char.ofNat n.val) = 's' →
      Char.ofNat n.val = 's' ∨ Char.ofNat n.val = 'S') := by decide

/-- Only `y`/`Y`, `e`/`E`, `s`/`S` lowercase to `y`, `e`, `s`. -/
theorem jsLowerChar_inv (a : Char) :
    (jsLowerChar a = 'y' → a = 'y' ∨ a = 'Y') ∧
    (jsLowerChar a = 'e' → a = 'e' ∨ a = 'E') ∧
    (jsLowerChar a = 's' → a = 's' ∨ a = 'S') := by
  by_cases hn : a.toNat < 128
  · have h := jsLowerChar_fin128 ⟨a.toNat, hn⟩
    simpa [Char.ofNat_toNat] using h
  · push_neg at hn
    have hid : jsLowerChar a = a := by
      unfold jsLowerChar
      rw [if_neg (by omega : ¬(65 ≤ a.toNat ∧ a.toNat ≤ 90))]
    rw [hid]
    exact ⟨fun h => .inl h, fun h => .inl h, fun h => .inl h⟩

/-- C2 (counterexample): the input `"yES"` is none of `"yes"`, `"YES"`,
`"Yes"`, yet the gate proceeds to `unfollowFids` on it — the comparison
is `answer.toLowerCase() === 'yes'`, not a three-token whitelist. -/
theorem confirmGate_not_three_tokens :
    confirmGate ['y', 'E', 'S'] = MainAction.runUnfollow ∧
      ['y', 'E', 'S'] ≠ ['y', 'e', 's'] ∧
      ['y', 'E', 'S'] ≠ ['Y', 'E', 'S'] ∧
      ['y', 'E', 'S'] ≠ ['Y', 'e', 's'] := by decide

/-- C2 (amended): the gate proceeds to `unfollowFids` exactly on the
eight letter-case variants of `yes` (the strings whose lowercasing is
`yes`), and aborts on every other string, the empty string included. -/
theorem confirmGate_iff_case_variant (answer : List Char) :
    confirmGate answer = MainAction.runUnfollow ↔
      answer ∈ [['y', 'e', 's'], ['y', 'e', 'S'], ['y', 'E', 's'], ['y', 'E', 'S'],
                ['Y', 'e', 's'], ['Y', 'e', 'S'], ['Y', 'E', 's'], ['Y', 'E', 'S']] := by
  constructor
  · intro h
    unfold confirmGate at h
    by_cases hc : jsToLower answer = ['y', 'e', 's']
    · unfold jsToLower at hc
      rcases answer with _ | ⟨a, _ | ⟨b, _ | ⟨c, rest⟩⟩⟩
      · simp at hc
      · simp at hc
      · simp at hc
      · simp only [List.map_cons, List.cons.injEq, List.map_eq_nil_iff] at hc
        obtain ⟨ha, hb, hcc, rfl⟩ := hc
        rcases (jsLowerChar_inv a).1 ha with rfl | rfl <;>
          rcases (jsLowerChar_inv b).2.1 hb with rfl | rfl <;>
          rcases (jsLowerChar_inv c).2.2 hcc with rfl | rfl <;> decide
    · rw [if_neg hc] at h
      exact absurd h (by decide)
  · intro h
    simp only [List.mem_cons, List.not_mem_nil, or_false] at h
    rcases h with rfl | rfl | rfl | rfl | rfl | rfl | rfl | rfl <;> decide

/-- On a non-empty list, the requests `unfollowFids` issues are exactly
one per batch, in batch order, each carrying the signer credential and
the batch — independently of any batch's outcome. -/
theorem unfollowFids_requests (outcome : Nat → BatchResult) (signer : String)
    (fids : List JsVal) (hne : fids ≠ []) :
    (unfollowFids outcome signer fids).requests =
      (makeBatches fids).map (fun b => ⟨signer, b⟩) := by
  unfold unfollowFids
  rw [if_neg (fun h => hne (List.length_eq_zero.mp h))]
  show (((makeBatches fids).enum.map fun p =>
      processBatch outcome (makeBatches fids).length signer p.1 p.2).map Prod.fst) = _
  rw [List.map_map]
  have h1 : (Prod.fst ∘ fun p : Nat × List JsVal =>
      processBatch outcome (makeBatches fids).length signer p.1 p.2) =
      ((fun b : List JsVal => (⟨signer, b⟩ : DeleteRequest)) ∘ Prod.snd) := rfl
  rw [h1, ← List.map_map, List.enum_map_snd]

/-- On a non-empty list, the log of `unfollowFids` is the two header
lines, the concatenation of each batch's own log block, and the final
completion line. -/
theorem unfollowFids_logs (outcome : Nat → BatchResult) (signer : String)
    (fids : List JsVal) (hne : fids ≠ []) :
    (unfollowFids outcome signer fids).logs =
      .infoPreparing fids.length :: .infoSplitting (makeBatches fids).length ::
        ((((makeBatches fids).enum.map fun p =>
            (processBatch outcome (makeBatches fids).length signer p.1 p.2).2).flatten)
          ++ [.successAllDone]) := by
  unfold unfollowFids
  rw [if_neg (fun h => hne (List.length_eq_zero.mp h))]
  show LogEvent.infoPreparing fids.length :: LogEvent.infoSplitting (makeBatches fids).length ::
      (((((makeBatches fids).enum.map fun p =>
        processBatch outcome (makeBatches fids).length signer p.1 p.2).map Prod.snd).flatten)
        ++ [LogEvent.successAllDone]) = _
  rw [List.map_map]
  rfl

/-- C7: every chunk's DELETE request is attempted whatever the other
chunks' outcomes are (the issued requests are exactly the batches, for
any two outcome assignments alike), a failing chunk's error is caught and
logged individually, and the completion line is logged last, after every
chunk's block. -/
theorem unfollowFids_attempts_all_chunks (outcome outcome' : Nat → BatchResult)
    (signer : String) (fids : List JsVal) (i : Nat) (e : JsError)
    (hne : fids ≠ []) (hi : i < (makeBatches fids).length)
    (hfail : outcome i = .failed e) :
    (unfollowFids outcome signer fids).requests.map DeleteRequest.target_fids
        = makeBatches fids ∧
    (unfollowFids outcome' signer fids).requests
        = (unfollowFids outcome signer fids).requests ∧
    LogEvent.errorBatchFailed (i + 1) ∈ (unfollowFids outcome signer fids).logs ∧
    (unfollowFids outcome signer fids).logs.getLast? = some LogEvent.successAllDone := by
  refine ⟨?_, ?_, ?_, ?_⟩
  · rw [unfollowFids_requests outcome signer fids hne, List.map_map]
    have h1 : (DeleteRequest.target_fids ∘ fun b : List JsVal =>
        (⟨signer, b⟩ : DeleteRequest)) = id := rfl
    rw [h1, List.map_id]
  · rw [unfollowFids_requests outcome signer fids hne,
      unfollowFids_requests outcome' signer fids hne]
  · rw [unfollowFids_logs outcome signer fids hne]
    refine List.mem_cons_of_mem _ (List.mem_cons_of_mem _ (List.mem_append_left _ ?_))
    rw [List.mem_flatten]
    refine ⟨(processBatch outcome (makeBatches fids).length signer i
      ((makeBatches fids).get ⟨i, hi⟩)).2, ?_, ?_⟩
    · have hlen : i < (makeBatches fids).enum.length := by
        rw [List.enum_length]
        exact hi
      have hget : (makeBatches fids).enum.get ⟨i, hlen⟩ =
          (i, (makeBatches fids).get ⟨i, hi⟩) := by
        simp [List.getElem_enum]
      have hmem : (i, (makeBatches fids).get ⟨i, hi⟩) ∈ (makeBatches fids).enum := by
        rw [← hget]
        exact List.get_mem _ i hlen
      exact List.mem_map_of_mem _ hmem
    · simp [processBatch, hfail]
  · rw [unfollowFids_logs outcome signer fids hne, ← List.cons_append, ← List.cons_append,
      List.getLast?_concat]

/-- C3: any throw inside the `try` block of `fetchFidsToUnfollow` — an
axios failure at submission, polling or result fetch included — is caught
inside the function: the caller receives the empty list (no propagation),
and the `catch` block logs its fixed line plus the status code and
response body when the error carries a response, or the error message
when it does not. -/
theorem fetch_failure_caught_and_logged (env : DuneEnv) (fuel : Nat)
    (t : FetchTrace) (e : JsError)
    (ht : tryFetch env fuel = some t) (he : t.result = .error e) :
    fetchFidsToUnfollow env fuel = some ([], { t with logs := t.logs ++ catchLogs e }) ∧
    LogEvent.errorDuneFetch ∈ t.logs ++ catchLogs e ∧
    ((∃ st body, e.response = some (st, body) ∧
        LogEvent.errorStatusLine st body ∈ t.logs ++ catchLogs e) ∨
      (e.response = none ∧ LogEvent.errorMessage e.message ∈ t.logs ++ catchLogs e)) := by
  refine ⟨?_, ?_, ?_⟩
  · simp only [fetchFidsToUnfollow, ht, he]
  · simp [catchLogs]
  · rcases hr : e.response with _ | ⟨st, body⟩
    · right
      exact ⟨rfl, by simp [catchLogs, hr]⟩
    · left
      exact ⟨st, body, rfl, by simp [catchLogs, hr]⟩

/-- C4: when the very first status poll reports `QUERY_STATE_FAILED`, the
polling loop stops after that single status request — one status call,
no results call — and the runner hands its caller the empty list. -/
theorem first_poll_failure_stops (env : DuneEnv) (fuel : Nat) (eid : String)
    (st : StatusResponse)
    (hex : env.executeResp = .ok ⟨some eid⟩) (heid : eid ≠ "")
    (hst : env.statusResp 0 = .ok st) (hfail : st.state = "QUERY_STATE_FAILED")
    (hfuel : 1 ≤ fuel) :
    tryFetch env fuel = some ⟨.error ⟨none, "Dune query failed: " ++ st.errText⟩, 1, false,
        [.infoExecutingQuery, .infoExecutionStarted eid]⟩ ∧
    fetchFidsToUnfollow env fuel = some ([],
      ⟨.error ⟨none, "Dune query failed: " ++ st.errText⟩, 1, false,
        [.infoExecutingQuery, .infoExecutionStarted eid, .errorDuneFetch,
         .errorMessage ("Dune query failed: " ++ st.errText)]⟩) := by
  obtain ⟨k, rfl⟩ : ∃ k, fuel = k + 1 := ⟨fuel - 1, by omega⟩
  have hpoll : pollLoop env.statusResp (k + 1) 0 =
      some (1, [], .error ⟨none, "Dune query failed: " ++ st.errText⟩) := by
    simp only [pollLoop, hst]
    rw [if_pos hfail]
  have htry : tryFetch env (k + 1) =
      some ⟨.error ⟨none, "Dune query failed: " ++ st.errText⟩, 1, false,
        [.infoExecutingQuery, .infoExecutionStarted eid]⟩ := by
    simp only [tryFetch, hex]
    rw [if_neg heid, hpoll]
  refine ⟨htry, ?_⟩
  simp only [fetchFidsToUnfollow, htry]
  rfl

/-- C5: a submission response with no `execution_id` makes the `try`
block throw (`'Failed to get execution ID from Dune.'` — the spec's
`SubmissionError`) before any status or results request, and the `catch`
block downgrades it to an empty list plus the logged message. -/
theorem submission_error_downgraded (env : DuneEnv) (fuel : Nat)
    (hex : env.executeResp = .ok ⟨none⟩) :
    tryFetch env fuel = some ⟨.error ⟨none, "Failed to get execution ID from Dune."⟩, 0, false,
        [.infoExecutingQuery]⟩ ∧
    fetchFidsToUnfollow env fuel = some ([],
      ⟨.error ⟨none, "Failed to get execution ID from Dune."⟩, 0, false,
        [.infoExecutingQuery, .errorDuneFetch,
         .errorMessage "Failed to get execution ID from Dune."]⟩) := by
  have htry : tryFetch env fuel =
      some ⟨.error ⟨none, "Failed to get execution ID from Dune."⟩, 0, false,
        [.infoExecutingQuery]⟩ := by
    simp only [tryFetch, hex]
  refine ⟨htry, ?_⟩
  simp only [fetchFidsToUnfollow, htry]
  rfl

/-- C9: a successful fetch projects `profile_id` out of every result row,
one output entry per row, no filtering and no validation — a row lacking
the field contributes an `undefined` (`none`) entry — and the batching
later scatters exactly these entries, `undefined` included, across the
deletion requests (`flatten` of the batches is the projected list). -/
theorem projection_total_per_row (env : DuneEnv) (fuel : Nat)
    (t : FetchTrace) (fids : List JsVal)
    (ht : tryFetch env fuel = some t) (hok : t.result = .ok fids) :
    ∃ rows : List Row, env.resultsResp = .ok rows ∧
      fids = rows.map Row.profile_id ∧
      fids.length = rows.length ∧
      (∀ i : Nat, fids[i]? = (rows[i]?).map Row.profile_id) ∧
      (makeBatches fids).flatten = fids := by
  unfold tryFetch at ht
  rcases hex : env.executeResp with e | ⟨_ | eid⟩
  · simp only [hex] at ht
    injection ht with h
    subst h
    simp at hok
  · simp only [hex] at ht
    injection ht with h
    subst h
    simp at hok
  · simp only [hex] at ht
    by_cases heid : eid = ""
    · rw [if_pos heid] at ht
      injection ht with h
      subst h
      simp at hok
    · rw [if_neg heid] at ht
      rcases hpoll : pollLoop env.statusResp fuel 0 with _ | ⟨n, plogs, e | u⟩
      · simp [hpoll] at ht
      · simp only [hpoll] at ht
        injection ht with h
        subst h
        simp at hok
      · rcases hres : env.resultsResp with e | rows
        · simp only [hpoll, hres] at ht
          injection ht with h
          subst h
          simp at hok
        · simp only [hpoll, hres] at ht
          injection ht with h
          subst h
          simp only [Except.ok.injEq] at hok
          subst hok
          refine ⟨rows, rfl, rfl, List.length_map _ _, ?_, makeBatches_flatten _⟩
          intro i
          exact List.getElem?_map _ _ _

/-- C10: the startup check of `main` tests only presence (truthiness) of
the four variables — any non-empty target-identifier string passes it —
and the submission request then carries `Number(TARGET_FID)` as the query
parameter with nothing re-validating it, so a non-numeric string flows
out as `NaN` (`jsNumberOfChars = none`, witnessed by `"abc"`) without any
error being raised. -/
theorem env_check_presence_only (e : ProcessEnv) (t : List Char)
    (h1 : truthyStr e.DUNE_API_KEY = true) (h2 : truthyStr e.NEYNAR_API_KEY = true)
    (h3 : truthyStr e.FARCASTER_SIGNER_UUID = true)
    (ht : e.TARGET_FID = some t) (hne : t ≠ []) :
    envCheckPasses e = true ∧
    mainSubmission e = some ⟨jsNumberOfChars t⟩ ∧
    jsNumberOfChars ['a', 'b', 'c'] = none := by
  have htr : truthyStr e.TARGET_FID = true := by
    rw [ht]
    simp [truthyStr, hne]
  have hpass : envCheckPasses e = true := by
    simp [envCheckPasses, h1, h2, h3, htr]
  refine ⟨hpass, ?_, by decide⟩
  simp [mainSubmission, hpass, ht]

/-! ## Closed instances of the conditional claim theorems -/

theorem unfollowFids_attempts_all_chunks_witness :
    (([some 1] : List JsVal) ≠ []) ∧
    0 < (makeBatches ([some 1] : List JsVal)).length ∧
    ((fun _ : Nat => BatchResult.failed ⟨none, "boom"⟩) 0 = .failed ⟨none, "boom"⟩) ∧
    ((unfollowFids (fun _ => .failed ⟨none, "boom"⟩) "s" [some 1]).requests.map
        DeleteRequest.target_fids = makeBatches [some 1] ∧
      (unfollowFids (fun _ => .ok) "s" [some 1]).requests
          = (unfollowFids (fun _ => .failed ⟨none, "boom"⟩) "s" [some 1]).requests ∧
      LogEvent.errorBatchFailed (0 + 1) ∈
        (unfollowFids (fun _ => .failed ⟨none, "boom"⟩) "s" [some 1]).logs ∧
      (unfollowFids (fun _ => .failed ⟨none, "boom"⟩) "s" [some 1]).logs.getLast?
          = some LogEvent.successAllDone) :=
  ⟨by decide, by decide, rfl,
   unfollowFids_attempts_all_chunks (fun _ => .failed ⟨none, "boom"⟩) (fun _ => .ok)
     "s" [some 1] 0 ⟨none, "boom"⟩ (by decide) (by decide) rfl⟩

theorem fetch_failure_caught_and_logged_witness :
    tryFetch ⟨.error ⟨some (500, "oops"), "boom"⟩, fun _ => .ok ⟨"", ""⟩, .ok []⟩ 1 =
      some ⟨.error ⟨some (500, "oops"), "boom"⟩, 0, false, [.infoExecutingQuery]⟩ ∧
    (fetchFidsToUnfollow ⟨.error ⟨some (500, "oops"), "boom"⟩, fun _ => .ok ⟨"", ""⟩, .ok []⟩ 1 =
        some ([], ⟨.error ⟨some (500, "oops"), "boom"⟩, 0, false,
          [.infoExecutingQuery, .errorDuneFetch, .errorStatusLine 500 "oops"]⟩) ∧
      LogEvent.errorDuneFetch ∈
        ([LogEvent.infoExecutingQuery] ++ catchLogs ⟨some (500, "oops"), "boom"⟩) ∧
      ((∃ st body, (some (500, "oops") : Option (Nat × String)) = some (st, body) ∧
          LogEvent.errorStatusLine st body ∈
            ([LogEvent.infoExecutingQuery] ++ catchLogs ⟨some (500, "oops"), "boom"⟩)) ∨
        ((some (500, "oops") : Option (Nat × String)) = none ∧
          LogEvent.errorMessage "boom" ∈
            ([LogEvent.infoExecutingQuery] ++ catchLogs ⟨some (500, "oops"), "boom"⟩)))) :=
  ⟨rfl,
   fetch_failure_caught_and_logged
     ⟨.error ⟨some (500, "oops"), "boom"⟩, fun _ => .ok ⟨"", ""⟩, .ok []⟩ 1
     ⟨.error ⟨some (500, "oops"), "boom"⟩, 0, false, [.infoExecutingQuery]⟩
     ⟨some (500, "oops"), "boom"⟩ rfl rfl⟩

theorem first_poll_failure_stops_witness :
    (⟨.ok ⟨some "ex1"⟩, fun _ => .ok ⟨"QUERY_STATE_FAILED", "boom"⟩, .ok []⟩ :
        DuneEnv).executeResp = .ok ⟨some "ex1"⟩ ∧
    ("ex1" : String) ≠ "" ∧
    (⟨.ok ⟨some "ex1"⟩, fun _ => .ok ⟨"QUERY_STATE_FAILED", "boom"⟩, .ok []⟩ :
        DuneEnv).statusResp 0 = .ok ⟨"QUERY_STATE_FAILED", "boom"⟩ ∧
    (1 : Nat) ≤ 1 ∧
    (tryFetch ⟨.ok ⟨some "ex1"⟩, fun _ => .ok ⟨"QUERY_STATE_FAILED", "boom"⟩, .ok []⟩ 1 =
        some ⟨.error ⟨none, "Dune query failed: " ++ "boom"⟩, 1, false,
          [.infoExecutingQuery, .infoExecutionStarted "ex1"]⟩ ∧
      fetchFidsToUnfollow ⟨.ok ⟨some "ex1"⟩, fun _ => .ok ⟨"QUERY_STATE_FAILED", "boom"⟩,
          .ok []⟩ 1 =
        some ([], ⟨.error ⟨none, "Dune query failed: " ++ "boom"⟩, 1, false,
          [.infoExecutingQuery, .infoExecutionStarted "ex1", .errorDuneFetch,
           .errorMessage ("Dune query failed: " ++ "boom")]⟩)) :=
  ⟨rfl, by decide, rfl, by decide,
   first_poll_failure_stops
     ⟨.ok ⟨some "ex1"⟩, fun _ => .ok ⟨"QUERY_STATE_FAILED", "boom"⟩, .ok []⟩ 1
     "ex1" ⟨"QUERY_STATE_FAILED", "boom"⟩ rfl (by decide) rfl rfl (by decide)⟩

theorem submission_error_downgraded_witness :
    (⟨.ok ⟨none⟩, fun _ => .ok ⟨"", ""⟩, .ok []⟩ : DuneEnv).executeResp = .ok ⟨none⟩ ∧
    (tryFetch ⟨.ok ⟨none⟩, fun _ => .ok ⟨"", ""⟩, .ok []⟩ 0 =
        some ⟨.error ⟨none, "Failed to get execution ID from Dune."⟩, 0, false,
          [.infoExecutingQuery]⟩ ∧
      fetchFidsToUnfollow ⟨.ok ⟨none⟩, fun _ => .ok ⟨"", ""⟩, .ok []⟩ 0 =
        some ([], ⟨.error ⟨none, "Failed to get execution ID from Dune."⟩, 0, false,
          [.infoExecutingQuery, .errorDuneFetch,
           .errorMessage "Failed to get execution ID from Dune."]⟩)) :=
  ⟨rfl, submission_error_downgraded ⟨.ok ⟨none⟩, fun _ => .ok ⟨"", ""⟩, .ok []⟩ 0 rfl⟩

theorem projection_total_per_row_witness :
    tryFetch ⟨.ok ⟨some "ex"⟩, fun _ => .ok ⟨"QUERY_STATE_COMPLETED", ""⟩,
        .ok [⟨some 7⟩, ⟨none⟩]⟩ 1 =
      some ⟨.ok [some 7, none], 1, true,
        [.infoExecutingQuery, .infoExecutionStarted "ex",
         .infoQueryState "QUERY_STATE_COMPLETED", .successFound 2]⟩ ∧
    (∃ rows : List Row,
      (⟨.ok ⟨some "ex"⟩, fun _ => .ok ⟨"QUERY_STATE_COMPLETED", ""⟩,
          .ok [⟨some 7⟩, ⟨none⟩]⟩ : DuneEnv).resultsResp = .ok rows ∧
      ([some 7, none] : List JsVal) = rows.map Row.profile_id ∧
      ([some 7, none] : List JsVal).length = rows.length ∧
      (∀ i : Nat, ([some 7, none] : List JsVal)[i]? = (rows[i]?).map Row.profile_id) ∧
      (makeBatches ([some 7, none] : List JsVal)).flatten = [some 7, none]) :=
  ⟨rfl,
   projection_total_per_row
     ⟨.ok ⟨some "ex"⟩, fun _ => .ok ⟨"QUERY_STATE_COMPLETED", ""⟩, .ok [⟨some 7⟩, ⟨none⟩]⟩ 1
     ⟨.ok [some 7, none], 1, true,
       [.infoExecutingQuery, .infoExecutionStarted "ex",
        .infoQueryState "QUERY_STATE_COMPLETED", .successFound 2]⟩
     [some 7, none] rfl rfl⟩

theorem env_check_presence_only_witness :
    truthyStr (⟨some ['k'], some ['k'], some ['k'], some ['a', 'b', 'c']⟩ :
        ProcessEnv).DUNE_API_KEY = true ∧
    truthyStr (⟨some ['k'], some ['k'], some ['k'], some ['a', 'b', 'c']⟩ :
        ProcessEnv).TARGET_FID = true ∧
    (['a', 'b', 'c'] : List Char) ≠ [] ∧
    (envCheckPasses ⟨some ['k'], some ['k'], some ['k'], some ['a', 'b', 'c']⟩ = true ∧
      mainSubmission ⟨some ['k'], some ['k'], some ['k'], some ['a', 'b', 'c']⟩ =
        some ⟨jsNumberOfChars ['a', 'b', 'c']⟩ ∧
      jsNumberOfChars ['a', 'b', 'c'] = none) :=
  ⟨by decide, by decide, by decide,
   env_check_presence_only ⟨some ['k'], some ['k'], some ['k'], some ['a', 'b', 'c']⟩
     ['a', 'b', 'c'] (by decide) (by decide) (by decide) rfl (by decide)⟩

end Unfollow
